import Mathlib

/-!
  # kefbar-go: discovery and controller state discipline

  A shallow embedding of the KEF speaker controller (`internal/controller`,
  `internal/api`, `pkg/kef`) and the discovery engine (`internal/discovery`)
  of the kefbar-go repository, with theorems checking the specification's
  claims about them.

  Modelling conventions:

  * JSON values decoded into Go's `interface{}` are modelled by the
    inductive `J`; objects (`map[string]interface{}`) are association
    lists, and a JSON number (Go `float64`) is modelled by `Int`, which is
    exact on the integer payloads the code reads.
  * The network is a `Transport`: the outcome of each `api.Client` HTTP
    call (`GetData`, `SetData`), as a function of the request. The
    client-side decoding and checks (`GetInt`, `GetString`, `SetInt`) are
    embedded from `internal/api/client.go` on top of it.
  * The controller (`internal/controller/controller.go`) is pure state
    passing over `Ctrl`. Go pointer structure matters for the snapshot
    claims: `SpeakerState.PlaybackInfo` is a `*PlaybackInfo`, so the
    embedded state holds a heap address (`Option Nat`) into an explicit
    allocation list `Ctrl.heap`; `GetPlaybackInfo` allocates a fresh cell,
    exactly as `info := &kef.PlaybackInfo{}` does.
  * `Ctrl.loops` counts the background refresh goroutines spawned by
    `go c.startPeriodicUpdates()`; the code has no guard around that
    spawn, and the counter makes the spawn observable.
  * Durations are `Nat` nanoseconds; Go's `timeout/2` on the positive
    `time.Duration` is `Nat` division by 2.
-/

/-- JSON values as decoded into Go `interface{}` by `encoding/json`:
strings, numbers (`float64`, modelled as `Int`), booleans, null, arrays,
and objects (`map[string]interface{}`, modelled as association lists). -/
inductive J where
  | str : String → J
  | num : Int → J
  | bool : Bool → J
  | null : J
  | arr : List J → J
  | obj : List (String × J) → J

/-- The outcome of the two HTTP endpoints of `api.Client`, as a function of
the request: `getData path roles` is the decoded `[]interface{}` body of
`GET /api/getData` (or a transport/HTTP/decode error string), and
`setData path roles value` is the error of `GET /api/setData` (`none` on a
2xx reply). The host-empty guard lives in the client embedding below, not
here. -/
structure Transport where
  getData : String → String → Except String (List J)
  setData : String → String → String → Option String

/-- `api.Client.GetData`: fails with `no host configured` when the host is
empty, otherwise performs the HTTP call. -/
def Client.GetData (t : Transport) (host path roles : String) : Except String (List J) :=
  if host = "" then .error "no host configured" else t.getData path roles

/-- `api.Client.SetData`: fails with `no host configured` when the host is
empty, otherwise performs the HTTP call. -/
def Client.SetData (t : Transport) (host path roles value : String) : Option String :=
  if host = "" then some "no host configured" else t.setData path roles value

/-- `api.Client.GetInt`: `GetData path "value"`, then `result[0]` must be
an object whose `i32_` field is a number. -/
def Client.GetInt (t : Transport) (host path : String) : Except String Int :=
  match Client.GetData t host path "value" with
  | .error e => .error e
  | .ok result =>
    match result with
    | [] => .error "empty response"
    | r0 :: _ =>
      match r0 with
      | .obj data =>
        match data.lookup "i32_" with
        | some (.num v) => .ok v
        | _ => .error "invalid integer format"
      | _ => .error "invalid response format"

/-- `api.Client.GetString`: `GetData path "value"`, then `result[0]` must
be an object whose `string_` field is a string. -/
def Client.GetString (t : Transport) (host path : String) : Except String String :=
  match Client.GetData t host path "value" with
  | .error e => .error e
  | .ok result =>
    match result with
    | [] => .error "empty response"
    | r0 :: _ =>
      match r0 with
      | .obj data =>
        match data.lookup "string_" with
        | some (.str v) => .ok v
        | _ => .error "invalid string format"
      | _ => .error "invalid response format"

/-- `api.Client.SetInt`: `SetData` of the JSON envelope
`{"type":"i32_","i32_":value}`. -/
def Client.SetInt (t : Transport) (host path : String) (value : Int) : Option String :=
  Client.SetData t host path "value"
    ("\x7b\"type\":\"i32_\",\"i32_\":" ++ toString value ++ "\x7d")

/-- `kef.PlaybackInfo`: the currently playing track. -/
structure PlaybackInfo where
  title : String
  artist : String
  album : String
  albumArt : String
  duration : Int
  position : Int
  state : String
deriving DecidableEq, Repr

/-- The zero value `kef.PlaybackInfo{}`. -/
def PlaybackInfo.empty : PlaybackInfo :=
  { title := "", artist := "", album := "", albumArt := "", duration := 0
    position := 0, state := "" }

/-- `kef.SpeakerState`. The Go field `PlaybackInfo *kef.PlaybackInfo` is a
pointer: `playbackInfo` is its heap address (`none` for `nil`), resolved
against `Ctrl.heap`. -/
structure SpeakerState where
  ipAddress : String
  port : Int
  connected : Bool
  volume : Int
  playbackInfo : Option Nat
  isPoweredOn : Bool
  error : String
  model : String
deriving DecidableEq, Repr

/-- The configuration values the controller reads (`config.Config`). -/
structure Config where
  volumeStep : Int
deriving DecidableEq, Repr

/-- `controller.Controller`: the state it guards, the heap of allocated
`PlaybackInfo` cells (address = index; cells are only ever allocated, the
code never writes through an existing pointer), the ghost count of spawned
background refresh loops, and the `api.Client` host. -/
structure Ctrl where
  state : SpeakerState
  heap : List PlaybackInfo
  loops : Nat
  clientHost : String
  cfg : Config
deriving Repr

/-- `controller.New`: empty state except the configured port, client host
from the configured speaker IP, no loops running. -/
def Ctrl.new (speakerIP : String) (port : Int) (cfg : Config) : Ctrl :=
  { state := { ipAddress := "", port := port, connected := false, volume := 0
               playbackInfo := none, isPoweredOn := false, error := "", model := "" }
    heap := [], loops := 0, clientHost := speakerIP, cfg := cfg }

/-- `Controller.SetIP`: record the address, clear the last error, repoint
the API client. -/
def Ctrl.SetIP (ip : String) (c : Ctrl) : Ctrl :=
  { c with state := { c.state with ipAddress := ip, error := "" }, clientHost := ip }

/-- `Controller.GetState`: a copy of the state struct, taken under the read
lock. The copy is shallow, exactly as `return *c.state` is: the
`playbackInfo` pointer is copied as an address. -/
def Ctrl.GetState (c : Ctrl) : SpeakerState :=
  c.state

/-- `Controller.GetVolume`: read `player:volume`; on success cache it in
the state, on failure return the error with the state untouched. -/
def Ctrl.GetVolume (t : Transport) (c : Ctrl) : Ctrl × Except String Int :=
  match Client.GetInt t c.clientHost "player:volume" with
  | .error e => (c, .error e)
  | .ok volume => ({ c with state := { c.state with volume := volume } }, .ok volume)

/-- `Controller.SetVolume`: clamp the level into `[0,100]` (two `if`s, as
in the source), send it, and only on transport success store the clamped
level optimistically. -/
def Ctrl.SetVolume (t : Transport) (c : Ctrl) (level : Int) : Ctrl × Option String :=
  let level1 := if level < 0 then 0 else level
  let level2 := if level1 > 100 then 100 else level1
  match Client.SetInt t c.clientHost "player:volume" level2 with
  | some e => (c, some e)
  | none => ({ c with state := { c.state with volume := level2 } }, none)

/-- `Controller.VolumeUp`: read the cached volume under the read lock, add
the configured step, cap at 100, and delegate to `SetVolume`. -/
def Ctrl.VolumeUp (t : Transport) (c : Ctrl) : Ctrl × Option String :=
  let current := c.state.volume
  let newVol := current + c.cfg.volumeStep
  let newVol2 := if newVol > 100 then 100 else newVol
  Ctrl.SetVolume t c newVol2

/-- `Controller.VolumeDown`: read the cached volume under the read lock,
subtract the configured step, floor at 0, and delegate to `SetVolume`. -/
def Ctrl.VolumeDown (t : Transport) (c : Ctrl) : Ctrl × Option String :=
  let current := c.state.volume
  let newVol := current - c.cfg.volumeStep
  let newVol2 := if newVol < 0 then 0 else newVol
  Ctrl.SetVolume t c newVol2

/-- `strings.Split` with a one-character separator: split around every
occurrence of `sep`; the empty string yields `[""]`. -/
def goSplit (sep : Char) : List Char → List (List Char)
  | [] => [[]]
  | c :: rest =>
    let r := goSplit sep rest
    if c = sep then [] :: r
    else
      match r with
      | [] => [[c]]
      | hd :: tl => (c :: hd) :: tl

/-- `Controller.GetSpeakerModel`: read `settings:/releasetext`, take the
part before the first underscore, cache it as the model. The
`len(parts) == 0` guard of the source is the `[]` branch (unreachable, as
`strings.Split` never returns an empty slice). -/
def Ctrl.GetSpeakerModel (t : Transport) (c : Ctrl) : Ctrl × Except String String :=
  match Client.GetString t c.clientHost "settings:/releasetext" with
  | .error e => (c, .error e)
  | .ok releaseText =>
    match (goSplit '_' releaseText.toList).map List.asString with
    | [] => (c, .error "invalid release text format")
    | model :: _ =>
      ({ c with state := { c.state with model := model } }, .ok model)

/-- The field extraction of `Controller.GetPlaybackInfo` from the decoded
`result[0]` object: each Go `if x, ok := ...; ok` type-assertion keeps the
zero value when the key is absent or of the wrong type. -/
def parsePlayback (data : List (String × J)) : PlaybackInfo :=
  let i0 := PlaybackInfo.empty
  let i1 :=
    match data.lookup "state" with
    | some (.str s) => { i0 with state := s }
    | _ => i0
  let i2 :=
    match data.lookup "status" with
    | some (.obj status) =>
      match status.lookup "duration" with
      | some (.num d) => { i1 with duration := d }
      | _ => i1
    | _ => i1
  match data.lookup "trackRoles" with
  | some (.obj trackRoles) =>
    let i3 :=
      match trackRoles.lookup "title" with
      | some (.str title) => { i2 with title := title }
      | _ => i2
    let i4 :=
      match trackRoles.lookup "icon" with
      | some (.str icon) => { i3 with albumArt := icon }
      | _ => i3
    match trackRoles.lookup "mediaData" with
    | some (.obj mediaData) =>
      match mediaData.lookup "metaData" with
      | some (.obj metaData) =>
        let i5 :=
          match metaData.lookup "artist" with
          | some (.str artist) => { i4 with artist := artist }
          | _ => i4
        match metaData.lookup "album" with
        | some (.str album) => { i5 with album := album }
        | _ => i5
      | _ => i4
    | _ => i4
  | _ => i2

/-- `Controller.GetPlaybackInfo`: read `player:player/data`, parse
`result[0]`, allocate a fresh `PlaybackInfo` cell (`info := &kef.PlaybackInfo{}`)
and point the state at it. Returns the new cell's address. -/
def Ctrl.GetPlaybackInfo (t : Transport) (c : Ctrl) : Ctrl × Except String Nat :=
  match Client.GetData t c.clientHost "player:player/data" "value" with
  | .error e => (c, .error e)
  | .ok result =>
    match result with
    | [] => (c, .error "empty playback response")
    | r0 :: _ =>
      match r0 with
      | .obj data =>
        let info := parsePlayback data
        let addr := c.heap.length
        ({ c with heap := c.heap ++ [info]
                  state := { c.state with playbackInfo := some addr } },
         .ok addr)
      | _ => (c, .error "invalid playback response format")

/-- `Controller.NextTrack`: send the skip command; the delayed playback
refresh it spawns is a separate concurrent activity, modelled as its own
later `Op.playback` step. -/
def Ctrl.NextTrack (t : Transport) (c : Ctrl) : Ctrl × Option String :=
  match Client.SetData t c.clientHost "player:player/control" "activate"
      "\x7b\"control\":\"next\"\x7d" with
  | some e => (c, some e)
  | none => (c, none)

/-- `Controller.PreviousTrack`: send the skip command; the delayed refresh
is modelled as its own later `Op.playback` step. -/
def Ctrl.PreviousTrack (t : Transport) (c : Ctrl) : Ctrl × Option String :=
  match Client.SetData t c.clientHost "player:player/control" "activate"
      "\x7b\"control\":\"previous\"\x7d" with
  | some e => (c, some e)
  | none => (c, none)

/-- `Controller.Connect`: fail fast when no IP is set; probe reachability
with `GetVolume`; on probe failure mark disconnected, record the error and
return it without starting the loop; on probe success fetch the model
(failure only logged), mark connected, clear the error, and spawn one more
background refresh loop (`go c.startPeriodicUpdates()` — unconditionally). -/
def Ctrl.Connect (t : Transport) (c : Ctrl) : Ctrl × Option String :=
  let ip := c.state.ipAddress
  if ip = "" then (c, some "no IP address set")
  else
    match Ctrl.GetVolume t c with
    | (c1, .error e) =>
      ({ c1 with state := { c1.state with connected := false, error := e } }, some e)
    | (c1, .ok _) =>
      let c2 := (Ctrl.GetSpeakerModel t c1).1
      ({ c2 with state := { c2.state with connected := true, error := "" }
                 loops := c2.loops + 1 },
       none)

/-- One tick of `Controller.startPeriodicUpdates`: when the cached state
says connected, re-fetch volume then playback info, ignoring their
errors. -/
def Ctrl.tick (t : Transport) (c : Ctrl) : Ctrl :=
  if c.state.connected then (Ctrl.GetPlaybackInfo t (Ctrl.GetVolume t c).1).1 else c

/-- A state-mutating controller operation, each carrying the transport
behaviour the network exhibits during it. `playback` covers both an
explicit `GetPlaybackInfo` call and the delayed post-skip refresh;
`tick` is one firing of the background refresh loop. -/
inductive Op where
  | setIP (ip : String)
  | connect (t : Transport)
  | getVolume (t : Transport)
  | setVolume (t : Transport) (level : Int)
  | volumeUp (t : Transport)
  | volumeDown (t : Transport)
  | getModel (t : Transport)
  | nextTrack (t : Transport)
  | prevTrack (t : Transport)
  | playback (t : Transport)
  | tick (t : Transport)

/-- The state transition of one operation (result values discarded). -/
def stepOp (op : Op) (c : Ctrl) : Ctrl :=
  match op with
  | .setIP ip => Ctrl.SetIP ip c
  | .connect t => (Ctrl.Connect t c).1
  | .getVolume t => (Ctrl.GetVolume t c).1
  | .setVolume t level => (Ctrl.SetVolume t c level).1
  | .volumeUp t => (Ctrl.VolumeUp t c).1
  | .volumeDown t => (Ctrl.VolumeDown t c).1
  | .getModel t => (Ctrl.GetSpeakerModel t c).1
  | .nextTrack t => (Ctrl.NextTrack t c).1
  | .prevTrack t => (Ctrl.PreviousTrack t c).1
  | .playback t => (Ctrl.GetPlaybackInfo t c).1
  | .tick t => Ctrl.tick t c

/-- Run a sequence of controller operations. -/
def runOps (ops : List Op) (c : Ctrl) : Ctrl :=
  ops.foldl (fun acc op => stepOp op acc) c

/-- Resolve a snapshot's playback pointer against a heap: what a holder of
the snapshot sees when dereferencing `state.PlaybackInfo`. -/
def viewPlayback (heap : List PlaybackInfo) (s : SpeakerState) : Option PlaybackInfo :=
  match s.playbackInfo with
  | none => none
  | some addr => heap[addr]?

/-- The snapshot's playback pointer, when present, points into the heap. -/
def wfCtrl (c : Ctrl) : Bool :=
  match c.state.playbackInfo with
  | none => true
  | some addr => addr < c.heap.length

/-- What the sweep's HTTP probe of one address yields: a transport-level
failure (request build or `client.Do` error), or a reply with a status code
and a body. The body is the result of decoding into
`[]map[string]interface{}`: `none` when decoding fails (malformed JSON, or
an element that is not an object), otherwise the list of objects. -/
inductive ProbeReply where
  | transportErr : ProbeReply
  | reply (status : Nat) (body : Option (List (List (String × J)))) : ProbeReply

/-- `discovery.isKEFSpeaker` on the probe's outcome: any request/transport
error is `false`; the status must be exactly 200; the body must decode; and
`data[0]` must contain the key `string_` (`if _, ok := data[0]["string_"]; ok`
— presence only, the value's type is not inspected). -/
def isKEFSpeaker (r : ProbeReply) : Bool :=
  match r with
  | .transportErr => false
  | .reply status body =>
    if status ≠ 200 then false
    else
      match body with
      | none => false
      | some [] => false
      | some (d0 :: _) => (d0.lookup "string_").isSome

/-- Modelled from the spec's qualification sentence, for comparison with
`isKEFSpeaker`: the endpoint replies 2xx and the JSON body's first element
contains a string-typed `string_` value field. -/
def specSweepQualifies (r : ProbeReply) : Bool :=
  match r with
  | .transportErr => false
  | .reply status body =>
    if 200 ≤ status ∧ status < 300 then
      match body with
      | some (d0 :: _) =>
        match d0.lookup "string_" with
        | some (.str _) => true
        | _ => false
      | _ => false
    else false

/-- The amended qualification: status exactly 200, decodable array-of-objects
body, nonempty, and the first object has a `string_` field of any type. -/
def amendedSweepQualifies (r : ProbeReply) : Bool :=
  match r with
  | .transportErr => false
  | .reply status body =>
    (status == 200) &&
      match body with
      | some (d0 :: _) => (d0.lookup "string_").isSome
      | _ => false

/-- `discovery.Discover`, over the two strategies as functions of their
budget: run SSDP with half the overall timeout; when it returns without
error take its address, otherwise return the network scan's outcome (run
with the other `timeout/2`) verbatim. -/
def Discover (ssdp scan : Nat → Except String String) (timeout : Nat) :
    Except String String :=
  match ssdp (timeout / 2) with
  | .ok ip => .ok ip
  | .error _ => scan (timeout / 2)

/-- The final fate of one per-interface SSDP goroutine in
`discovery.DiscoverViaSSDP`: still running; returned because
`net.ListenMulticastUDP` failed; returned on context cancellation;
returned because its interface-local deadline elapsed with no qualifying
reply; or returned after receiving a qualifying reply from `ip` (having
sent it towards the single-slot result channel). -/
inductive TaskFate where
  | running : TaskFate
  | listenFail : TaskFate
  | ctxReturn : TaskFate
  | deadlineNoReply : TaskFate
  | found (ip : String) : TaskFate
deriving DecidableEq, Repr

/-- An instant of a `DiscoverViaSSDP` run as its final `select` observes
it: the fate of every per-interface goroutine, whether the caller's
context is done, and whether the `time.After(timeout)` timer has fired. -/
structure SSDPRun where
  tasks : List TaskFate
  ctxDone : Bool
  timerFired : Bool

/-- The value sitting in the single-slot buffered result channel: the first
task to have found a reply wins the non-blocking race; later finders block. -/
def resultSlot : List TaskFate → Option String
  | [] => none
  | .found ip :: _ => some ip
  | _ :: rest => resultSlot rest

/-- How many tasks found a qualifying reply. -/
def countFound (tasks : List TaskFate) : Nat :=
  (tasks.filter fun f =>
    match f with
    | .found _ => true
    | _ => false).length

/-- `wg.Wait` has returned, closing `done`: every goroutine has returned.
A second finder is parked on the full result slot until cancellation, so
with two or more finds and no cancellation the group never finishes. -/
def allReturned (run : SSDPRun) : Bool :=
  run.tasks.all (fun f => f ≠ .running) && (countFound run.tasks ≤ 1 || run.ctxDone)

/-- What `DiscoverViaSSDP` returns: a discovered address, the context's
error, the timeout error, or the no-device-found error. -/
inductive SSDPOutcome where
  | found (ip : String) : SSDPOutcome
  | cancelled : SSDPOutcome
  | timedOut : SSDPOutcome
  | noDevice : SSDPOutcome
deriving DecidableEq, Repr

/-- The final `select` of `DiscoverViaSSDP`: each branch may be taken when
its channel is ready (Go chooses among ready branches nondeterministically).
`result` needs a value in the slot, `cancelled` the context done,
`timedOut` the fired timer, and `noDevice` the closed `done` channel. -/
inductive Resolves (run : SSDPRun) : SSDPOutcome → Prop where
  | result (ip : String) : resultSlot run.tasks = some ip → Resolves run (.found ip)
  | ctx : run.ctxDone = true → Resolves run .cancelled
  | timer : run.timerFired = true → Resolves run .timedOut
  | done : allReturned run = true → Resolves run .noDevice

/-- A transport whose volume read answers 42 and whose release-text read
answers `LSXII_4.0.1`; every `setData` succeeds. -/
def tHappy : Transport :=
  { getData := fun path _roles =>
      if path = "player:volume" then .ok [J.obj [("i32_", J.num 42)]]
      else if path = "settings:/releasetext" then .ok [J.obj [("string_", J.str "LSXII_4.0.1")]]
      else .error "unknown path"
    setData := fun _path _roles _value => none }

/-- A fresh controller pointed at a concrete address. -/
def cScenario : Ctrl :=
  Ctrl.SetIP "192.168.1.37" (Ctrl.new "" 80 { volumeStep := 5 })

/-- A transport whose playback read reports a playing track. -/
def tPlayA : Transport :=
  { getData := fun path _roles =>
      if path = "player:player/data" then .ok [J.obj [("state", J.str "playing")]]
      else .ok [J.obj [("i32_", J.num 10)]]
    setData := fun _path _roles _value => none }

/-- A transport whose playback read reports a paused track, and a changed
volume. -/
def tPlayB : Transport :=
  { getData := fun path _roles =>
      if path = "player:player/data" then .ok [J.obj [("state", J.str "paused")]]
      else .ok [J.obj [("i32_", J.num 77)]]
    setData := fun _path _roles _value => none }

/-- A controller that has already fetched playback info once: its state
points at heap cell 0. -/
def cSnap : Ctrl :=
  stepOp (.playback tPlayA) (Ctrl.SetIP "10.0.0.9" (Ctrl.new "" 80 { volumeStep := 5 }))

/-- The clamp of `Controller.SetVolume` written as the source writes it. -/
theorem setVolume_clamp_eq (v : Int) :
    (if (if v < 0 then 0 else v) > 100 then 100 else if v < 0 then 0 else v)
      = max 0 (min 100 v) := by
  split_ifs <;> omega
/-- Claim C1: `SetVolume` clamps its argument to `[0,100]` and sends the
clamped value; when the transport call succeeds the state's volume equals
the clamped value and no error is returned; when it fails the volume is
unchanged from its prior value and the error is returned. -/
theorem setVolume_clamps_and_updates (t : Transport) (c : Ctrl) (v : Int) :
    (Client.SetInt t c.clientHost "player:volume" (max 0 (min 100 v)) = none →
      (Ctrl.SetVolume t c v).1.state.volume = max 0 (min 100 v) ∧
      (Ctrl.SetVolume t c v).2 = none) ∧
    (∀ e, Client.SetInt t c.clientHost "player:volume" (max 0 (min 100 v)) = some e →
      (Ctrl.SetVolume t c v).1.state.volume = c.state.volume ∧
      (Ctrl.SetVolume t c v).2 = some e) := by
  simp only [Ctrl.SetVolume, setVolume_clamp_eq]
  constructor
  · intro h
    simp [h]
  · intro e h
    simp [h]

/-- Claim C1 witness: at volume 150 over a succeeding transport, the state
ends at the clamp 100 with no error. -/
theorem setVolume_clamps_and_updates_witness :
    Client.SetInt tHappy cScenario.clientHost "player:volume" (max 0 (min 100 150)) = none ∧
    (Ctrl.SetVolume tHappy cScenario 150).1.state.volume = max 0 (min 100 150) ∧
    (Ctrl.SetVolume tHappy cScenario 150).2 = none :=
  ⟨by decide, (setVolume_clamps_and_updates tHappy cScenario 150).1 (by decide)⟩
/-- Claim C2: `Discover` runs the SSDP prober with half the budget; on
prober success it returns that address and the scan is never consulted (the
result is the same for every scan); on prober failure of any kind it
returns the network scan of the other half-budget verbatim. -/
theorem discover_orchestration (ssdp scan : Nat → Except String String) (t : Nat) :
    (∀ ip, ssdp (t / 2) = .ok ip →
      Discover ssdp scan t = .ok ip ∧
      ∀ scan2, Discover ssdp scan2 t = .ok ip) ∧
    (∀ e, ssdp (t / 2) = .error e →
      Discover ssdp scan t = scan (t / 2)) := by
  constructor
  · intro ip h
    constructor
    · simp [Discover, h]
    · intro scan2
      simp [Discover, h]
  · intro e h
    simp [Discover, h]

/-- Claim C2 witness: a prober that succeeds at budget 5 (half of 10) makes
`Discover` return its address for any scan, here one that would fail. -/
theorem discover_orchestration_witness :
    (fun b => if b = 5 then Except.ok "10.0.0.2" else Except.error "timeout") (10 / 2)
        = Except.ok "10.0.0.2" ∧
    Discover (fun b => if b = 5 then Except.ok "10.0.0.2" else Except.error "timeout")
        (fun _ => Except.error "not found") 10 = Except.ok "10.0.0.2" :=
  ⟨by rfl,
   ((discover_orchestration
      (fun b => if b = 5 then Except.ok "10.0.0.2" else Except.error "timeout")
      (fun _ => Except.error "not found") 10).1 "10.0.0.2" (by rfl)).1⟩
/-- Claim C3 (refuted): `Connect` spawns a background refresh loop
unconditionally on every successful call — there is no started-flag — so
two successful `Connect` calls leave two loops running, not one. -/
theorem connect_twice_spawns_two_loops :
    (Ctrl.Connect tHappy cScenario).2 = none ∧
    (Ctrl.Connect tHappy (Ctrl.Connect tHappy cScenario).1).2 = none ∧
    (Ctrl.Connect tHappy (Ctrl.Connect tHappy cScenario).1).1.loops = 2 := by
  refine ⟨?_, ?_, ?_⟩ <;> rfl

/-- Claim C4: `Connect` (on a controller with an address set) probes
reachability by reading the volume; when the read fails the state is
disconnected with the error recorded, no loop is started, and the error is
returned; when it succeeds the state is connected with the error text
cleared and no error is returned. -/
theorem connect_probe (t : Transport) (c : Ctrl) (hip : ¬ c.state.ipAddress = "") :
    (∀ e, Client.GetInt t c.clientHost "player:volume" = .error e →
      (Ctrl.Connect t c).1.state.connected = false ∧
      (Ctrl.Connect t c).1.state.error = e ∧
      (Ctrl.Connect t c).1.loops = c.loops ∧
      (Ctrl.Connect t c).2 = some e) ∧
    (∀ v, Client.GetInt t c.clientHost "player:volume" = .ok v →
      (Ctrl.Connect t c).1.state.connected = true ∧
      (Ctrl.Connect t c).1.state.error = "" ∧
      (Ctrl.Connect t c).2 = none) := by
  constructor
  · intro e h
    simp [Ctrl.Connect, Ctrl.GetVolume, hip, h]
  · intro v h
    simp [Ctrl.Connect, Ctrl.GetVolume, hip, h]

/-- Claim C4 witness: over the happy transport the probe succeeds and the
controller ends connected with a clear error text. -/
theorem connect_probe_witness :
    ¬ cScenario.state.ipAddress = "" ∧
    Client.GetInt tHappy cScenario.clientHost "player:volume" = .ok 42 ∧
    (Ctrl.Connect tHappy cScenario).1.state.connected = true ∧
    (Ctrl.Connect tHappy cScenario).2 = none := by
  refine ⟨by decide, by rfl, ?_, ?_⟩
  · exact ((connect_probe tHappy cScenario (by decide)).2 42 (by rfl)).1
  · exact ((connect_probe tHappy cScenario (by decide)).2 42 (by rfl)).2.2
/-- Claim C5 counterexample: a 200 reply whose first element carries a
number-typed `string_` field qualifies for the code (key presence is all it
checks) but not for the spec's string-typed reading; the claimed
equivalence fails at this reply. -/
theorem sweep_qualification_counterexample :
    isKEFSpeaker (.reply 200 (some [[("string_", J.num 5)]])) = true ∧
    specSweepQualifies (.reply 200 (some [[("string_", J.num 5)]])) = false := by
  constructor <;> rfl

/-- Claim C5 as amended: a probe qualifies an address if and only if the
reply status is exactly 200 and the body decodes as a JSON array of objects
whose first element contains a `string_` field of any type; transport
errors, other statuses, malformed bodies and empty arrays do not qualify. -/
theorem sweep_qualification_amended (r : ProbeReply) :
    isKEFSpeaker r = amendedSweepQualifies r := by
  rcases r with _ | ⟨status, body⟩
  · rfl
  · by_cases h200 : status = 200
    · subst h200
      rcases body with _ | ⟨_ | ⟨d0, rest⟩⟩ <;> rfl
    · rcases body with _ | ⟨_ | ⟨d0, rest⟩⟩ <;>
        simp [isKEFSpeaker, amendedSweepQualifies, h200]
/-- Helper: `GetVolume` never touches the heap. -/
theorem getVolume_heap (t : Transport) (c : Ctrl) :
    (Ctrl.GetVolume t c).1.heap = c.heap := by
  unfold Ctrl.GetVolume
  rcases Client.GetInt t c.clientHost "player:volume" with e | v <;> rfl

/-- Helper: `SetVolume` never touches the heap. -/
theorem setVolume_heap (t : Transport) (c : Ctrl) (v : Int) :
    (Ctrl.SetVolume t c v).1.heap = c.heap := by
  simp only [Ctrl.SetVolume]
  rcases h : Client.SetInt t c.clientHost "player:volume"
      (if (if v < 0 then 0 else v) > 100 then 100 else if v < 0 then 0 else v) with _ | e <;>
    simp [h]

/-- Helper: `GetSpeakerModel` never touches the heap. -/
theorem getSpeakerModel_heap (t : Transport) (c : Ctrl) :
    (Ctrl.GetSpeakerModel t c).1.heap = c.heap := by
  unfold Ctrl.GetSpeakerModel
  rcases Client.GetString t c.clientHost "settings:/releasetext" with e | rt
  · rfl
  · rcases h : (goSplit '_' rt.data).map List.asString with _ | ⟨m, parts⟩ <;> simp [h]

/-- Helper: `GetPlaybackInfo` leaves the heap alone or appends one fresh
cell; either way the old heap stays a prefix. -/
theorem getPlaybackInfo_heap (t : Transport) (c : Ctrl) :
    ∃ ext, (Ctrl.GetPlaybackInfo t c).1.heap = c.heap ++ ext := by
  unfold Ctrl.GetPlaybackInfo
  rcases Client.GetData t c.clientHost "player:player/data" "value" with e | result
  · exact ⟨[], by simp⟩
  · rcases result with _ | ⟨r0, rest⟩
    · exact ⟨[], by simp⟩
    · rcases r0 with s | n | b | _ | a | data
      · exact ⟨[], by simp⟩
      · exact ⟨[], by simp⟩
      · exact ⟨[], by simp⟩
      · exact ⟨[], by simp⟩
      · exact ⟨[], by simp⟩
      · exact ⟨[parsePlayback data], by simp⟩

/-- Helper: every controller operation only ever extends the heap — cells
already allocated are never written again. -/
theorem stepOp_heap_extends (op : Op) (c : Ctrl) :
    ∃ ext, (stepOp op c).heap = c.heap ++ ext := by
  rcases op with ip | t | t | ⟨t, v⟩ | t | t | t | t | t | t | t
  · exact ⟨[], by simp [stepOp, Ctrl.SetIP]⟩
  · refine ⟨[], ?_⟩
    simp only [stepOp, Ctrl.Connect]
    by_cases hip : c.state.ipAddress = ""
    · simp [hip]
    · simp only [hip, if_false]
      rcases hg : Ctrl.GetVolume t c with ⟨c1, r⟩
      have h1 : c1.heap = c.heap := by
        have := getVolume_heap t c
        rw [hg] at this
        exact this
      rcases r with e | v
      · simp [h1]
      · simp [getSpeakerModel_heap, h1]
  · exact ⟨[], by simp [stepOp, getVolume_heap]⟩
  · exact ⟨[], by simp [stepOp, setVolume_heap]⟩
  · exact ⟨[], by simp [stepOp, Ctrl.VolumeUp, setVolume_heap]⟩
  · exact ⟨[], by simp [stepOp, Ctrl.VolumeDown, setVolume_heap]⟩
  · exact ⟨[], by simp [stepOp, getSpeakerModel_heap]⟩
  · refine ⟨[], ?_⟩
    simp only [stepOp, Ctrl.NextTrack]
    rcases Client.SetData t c.clientHost "player:player/control" "activate"
        "\x7b\"control\":\"next\"\x7d" with _ | e <;> simp
  · refine ⟨[], ?_⟩
    simp only [stepOp, Ctrl.PreviousTrack]
    rcases Client.SetData t c.clientHost "player:player/control" "activate"
        "\x7b\"control\":\"previous\"\x7d" with _ | e <;> simp
  · exact getPlaybackInfo_heap t c
  · simp only [stepOp, Ctrl.tick]
    by_cases hcon : c.state.connected
    · simp only [hcon, if_true]
      obtain ⟨ext, hext⟩ := getPlaybackInfo_heap t (Ctrl.GetVolume t c).1
      exact ⟨ext, by rw [hext, getVolume_heap]⟩
    · exact ⟨[], by simp [hcon]⟩

/-- Helper: running any operation sequence only extends the heap. -/
theorem runOps_heap_extends (ops : List Op) (c : Ctrl) :
    ∃ ext, (runOps ops c).heap = c.heap ++ ext := by
  induction ops generalizing c with
  | nil => exact ⟨[], by simp [runOps]⟩
  | cons op rest ih =>
    obtain ⟨e1, h1⟩ := stepOp_heap_extends op c
    obtain ⟨e2, h2⟩ := ih (stepOp op c)
    refine ⟨e1 ++ e2, ?_⟩
    have : runOps (op :: rest) c = runOps rest (stepOp op c) := rfl
    rw [this, h2, h1, List.append_assoc]
/-- Claim C6: a snapshot returned by `GetState` is decoupled from the live
instance — after any further sequence of state-mutating operations
(including background refresh ticks), dereferencing the snapshot, playback
pointer included, yields exactly what it yielded at snapshot time. Needs
only that the snapshot's pointer was a live allocation (`wfCtrl`). -/
theorem getState_snapshot_decoupled (ops : List Op) (c : Ctrl) (hwf : wfCtrl c = true) :
    viewPlayback (runOps ops c).heap (Ctrl.GetState c)
      = viewPlayback c.heap (Ctrl.GetState c) := by
  obtain ⟨ext, hext⟩ := runOps_heap_extends ops c
  unfold viewPlayback Ctrl.GetState
  rcases hpb : c.state.playbackInfo with _ | addr
  · rfl
  · have haddr : addr < c.heap.length := by
      unfold wfCtrl at hwf
      rw [hpb] at hwf
      simpa using hwf
    rw [hext]
    show (c.heap ++ ext)[addr]? = c.heap[addr]?
    exact List.getElem?_append_left haddr

/-- Claim C6 witness: a controller holding a freshly fetched playing-state
snapshot; a further background playback refresh over a transport now
reporting a paused track leaves the held snapshot's view unchanged. -/
theorem getState_snapshot_decoupled_witness :
    wfCtrl cSnap = true ∧
    viewPlayback (runOps [.playback tPlayB] cSnap).heap (Ctrl.GetState cSnap)
      = viewPlayback cSnap.heap (Ctrl.GetState cSnap) :=
  ⟨by decide, getState_snapshot_decoupled [.playback tPlayB] cSnap (by decide)⟩
/-- Claim C7 counterexample: one interface whose multicast listener fails
to open; its goroutine returns at once, `done` closes, and with nothing
else ready the prober returns no-device-found — yet that loop never ran to
its deadline, refuting the claim that no-device-found implies every loop
ran to completion (deadline) without a qualifying reply. -/
theorem ssdp_noDevice_counterexample :
    Resolves ⟨[TaskFate.listenFail], false, false⟩ .noDevice ∧
    ([TaskFate.listenFail].all fun f => f = .deadlineNoReply) = false :=
  ⟨Resolves.done (by decide), by decide⟩

/-- Claim C7 as amended: the prober returns no-device-found only when every
per-interface task has returned and none is still racing — a task returns
when its deadline elapses without a qualifying reply, but also when its
multicast listener cannot be opened, on cancellation, or after delivering a
found reply; timeout and cancelled failures are returned only when the
overall timer, respectively the cancellation, has fired. -/
theorem ssdp_failure_kinds (run : SSDPRun) :
    (Resolves run .noDevice →
      (run.tasks.all fun f => f ≠ .running) = true ∧
      (countFound run.tasks ≤ 1 ∨ run.ctxDone = true)) ∧
    (Resolves run .timedOut → run.timerFired = true) ∧
    (Resolves run .cancelled → run.ctxDone = true) := by
  refine ⟨?_, ?_, ?_⟩
  · intro h
    cases h with
    | done hd =>
      unfold allReturned at hd
      rw [Bool.and_eq_true] at hd
      refine ⟨hd.1, ?_⟩
      rcases Bool.or_eq_true_iff.mp hd.2 with h1 | h2
      · exact Or.inl (by simpa using h1)
      · exact Or.inr h2
  · intro h
    cases h with
    | timer ht => exact ht
  · intro h
    cases h with
    | ctx hc => exact hc

/-- Claim C7 witness: at the listen-failure run, the amended theorem yields
that no task is still racing. -/
theorem ssdp_failure_kinds_witness :
    (([TaskFate.listenFail] : List TaskFate).all fun f => f ≠ .running) = true :=
  (((ssdp_failure_kinds ⟨[TaskFate.listenFail], false, false⟩).1
      (Resolves.done (by decide))).1)
/-- Claim C8: over a transport answering volume 42 and release text
`LSXII_4.0.1`, `Connect` succeeds and the snapshot shows connected, volume
42, and model `LSXII` (the release text up to the first underscore). -/
theorem connect_scenario_volume_model :
    (Ctrl.Connect tHappy cScenario).2 = none ∧
    (Ctrl.GetState (Ctrl.Connect tHappy cScenario).1).connected = true ∧
    (Ctrl.GetState (Ctrl.Connect tHappy cScenario).1).volume = 42 ∧
    (Ctrl.GetState (Ctrl.Connect tHappy cScenario).1).model = "LSXII" := by
  refine ⟨rfl, rfl, rfl, ?_⟩
  decide

/-- Claim C9: `VolumeUp` issues `SetVolume (min (cached + step) 100)` and
`VolumeDown` issues `SetVolume (max (cached - step) 0)`, the cached value
being the state's volume field at call time, not a device re-read. -/
theorem volumeStep_uses_cached_volume (t : Transport) (c : Ctrl) :
    Ctrl.VolumeUp t c = Ctrl.SetVolume t c (min (c.state.volume + c.cfg.volumeStep) 100) ∧
    Ctrl.VolumeDown t c = Ctrl.SetVolume t c (max (c.state.volume - c.cfg.volumeStep) 0) := by
  constructor
  · simp only [Ctrl.VolumeUp]
    congr 1
    split_ifs with h <;> omega
  · simp only [Ctrl.VolumeDown]
    congr 1
    split_ifs with h <;> omega

/-- Claim C10: `SetIP` records the address and clears the last error, and
leaves every other `SpeakerState` field — connectivity, volume, playback
pointer, power, model, port — untouched; in particular it never marks the
controller connected. -/
theorem setIP_frame (c : Ctrl) (ip : String) :
    (Ctrl.SetIP ip c).state.ipAddress = ip ∧
    (Ctrl.SetIP ip c).state.error = "" ∧
    (Ctrl.SetIP ip c).state.connected = c.state.connected ∧
    (Ctrl.SetIP ip c).state.volume = c.state.volume ∧
    (Ctrl.SetIP ip c).state.playbackInfo = c.state.playbackInfo ∧
    (Ctrl.SetIP ip c).state.isPoweredOn = c.state.isPoweredOn ∧
    (Ctrl.SetIP ip c).state.model = c.state.model ∧
    (Ctrl.SetIP ip c).state.port = c.state.port :=
  ⟨rfl, rfl, rfl, rfl, rfl, rfl, rfl, rfl⟩
